import Mathlib

set_option maxRecDepth 10000

unseal Rat.add Rat.mul Rat.ofScientific Rat.inv Rat.sub

deriving instance DecidableEq for Except

/-!
Verification of the MagventurePyTMS driver (pytms.py).

The definitions below are a shallow embedding of the relevant parts of
pytms.py: the wire codec used by TMS._write and TMS._read, the CRC8
checksum, the quantization helper closestVal, the parameter range model,
and the state-mutating command surface of the TMS class.  Bytes are
modelled as Nat, Python ints as Int, Python floats as exact rationals.
-/

namespace PyTMS

/-! Wire protocol: CRC8 table function, frame encoding, inbound scanning. -/

/-- One table-building round of CRC8: `if a&1: a ^= 0b100011001; a >>= 1`. -/
def crcStep (a : Nat) : Nat := if a % 2 = 1 then (a ^^^ 281) / 2 else a / 2

/-- Iterate crcStep, mirroring `for i in range(8)` in CRC8 table construction. -/
def crcRounds : Nat → Nat → Nat
  | a, 0 => a
  | a, n + 1 => crcRounds (crcStep a) n

/-- Entry c of the 256-entry table CRC8.C8 (entry 0 is left at 0, which
crcRounds also yields). -/
def crcByte (c : Nat) : Nat := crcRounds c 8

/-- CRC8 from pytms.py: `rst = C8[0]; for b in u8: rst = C8[rst^b]`. -/
def CRC8 (u8 : List Nat) : Nat := u8.foldl (fun r b => crcByte (r ^^^ b)) (crcByte 0)

/-- Outbound frame built by TMS._write for command-plus-payload bytes
`(id,)+payload`: `bytes((254, len(b)) + b + (CRC8(b), 255))`. -/
def encode (id : Nat) (payload : List Nat) : List Nat :=
  [254, payload.length + 1, id] ++ payload ++ [CRC8 (id :: payload), 255]

/-- Candidate frame starts found by TMS._read:
`i0 = [i for i,val in enumerate(byts) if val==254]`. -/
def markerIdx : List Nat → Nat → List Nat
  | [], _ => []
  | v :: rest, i => (if v = 254 then [i] else []) ++ markerIdx rest (i + 1)

/-- One candidate of the TMS._read loop body.  `byts[i+1]` raising IndexError
is the `none` case (the `except: continue`); the Python slice
`byts[i : i + byts[i+1] + 4]` silently truncates, as drop/take do.  The
candidate is kept only when `b[-1] == 255 and b[-2] == CRC8(b[2:-2])`, and
then contributes the pair `(b[2], b[3:-2])` (commandId, payload). -/
def frameAt (byts : List Nat) (i : Nat) : Option (Nat × List Nat) :=
  (byts.drop (i + 1)).head?.bind (fun len =>
    let b := (byts.drop i).take (len + 4)
    if b.getLast? = some 255 ∧
        b.dropLast.getLast? = some (CRC8 ((b.drop 2).take (b.length - 4))) then
      some (b.getD 2 0, (b.drop 3).take (b.length - 5))
    else none)

/-- The `for i in range(len(i0))` loop of TMS._read: a rejected candidate is
passed over (`continue`) and the remaining candidates are still scanned. -/
def scanFrames (byts : List Nat) : List Nat → List (Nat × List Nat)
  | [] => []
  | i :: rest =>
    match frameAt byts i with
    | none => scanFrames byts rest
    | some f => f :: scanFrames byts rest

/-- Frame extraction of TMS._read over a received buffer. -/
def decode (byts : List Nat) : List (Nat × List Nat) :=
  scanFrames byts (markerIdx byts 0)

lemma markerIdx_eq_nil {l : List Nat} (h : ∀ x ∈ l, x ≠ 254) :
    ∀ i, markerIdx l i = [] := by
  induction l with
  | nil => intro i; rfl
  | cons v rest ih =>
    intro i
    have hv : v ≠ 254 := h v (List.mem_cons_self ..)
    simp only [markerIdx, if_neg hv, List.nil_append]
    exact ih (fun x hx => h x (List.mem_cons_of_mem _ hx)) (i + 1)

lemma markerIdx_cons_254 (t : List Nat) (i : Nat) :
    markerIdx (254 :: t) i = i :: markerIdx t (i + 1) := by
  simp [markerIdx]

lemma take_len_append (p q : List Nat) : (p ++ q).take p.length = p := by
  induction p with
  | nil => rfl
  | cons a p ih => simp [List.take_succ_cons, ih]

/-- C1 counterexample: the payload embeds a well-formed sub-frame, and the
scan of TMS._read also accepts the interior marker, yielding a second frame. -/
theorem decode_encode_two_frames :
    decode (encode 0 [254, 1, 7, CRC8 [7], 255]) ≠
      [(0, [254, 1, 7, CRC8 [7], 255])] := by decide

/-- C1 (amended): when no byte of the encoded frame after the leading marker
equals 254 (length byte, commandId, payload bytes and checksum byte all
differ from 254), decoding the encoded frame yields exactly the single
frame (commandId, payload). -/
theorem decode_encode_single (id : Nat) (payload : List Nat)
    (hid : id < 256) (hp : ∀ x ∈ payload, x < 256)
    (hlen : payload.length + 1 < 256)
    (h254 : ∀ x ∈ (encode id payload).drop 1, x ≠ 254) :
    decode (encode id payload) = [(id, payload)] := by
  have htail : encode id payload =
      254 :: ((payload.length + 1) :: id :: (payload ++ [CRC8 (id :: payload), 255])) := by
    simp [encode]
  have h254' : ∀ x ∈ (payload.length + 1) :: id :: (payload ++ [CRC8 (id :: payload), 255]),
      x ≠ 254 := by
    intro x hx
    apply h254
    rw [htail]
    simpa using hx
  have hMarkers : markerIdx (encode id payload) 0 = [0] := by
    rw [htail, markerIdx_cons_254, markerIdx_eq_nil h254' 1]
  have hlenE : (encode id payload).length = payload.length + 5 := by
    simp [encode]
  have hshape : encode id payload =
      ([254, payload.length + 1, id] ++ payload ++ [CRC8 (id :: payload)]) ++ [255] := by
    simp [encode]
  have hlast : (encode id payload).getLast? = some 255 := by
    rw [hshape, List.getLast?_concat]
  have hdl : (encode id payload).dropLast =
      [254, payload.length + 1, id] ++ payload ++ [CRC8 (id :: payload)] := by
    rw [hshape, List.dropLast_concat]
  have hdl2 : (encode id payload).dropLast.getLast? = some (CRC8 (id :: payload)) := by
    rw [hdl, List.getLast?_concat]
  have hmid : (((encode id payload).drop 2).take ((encode id payload).length - 4)) =
      id :: payload := by
    rw [hlenE, htail]
    simp only [List.drop_succ_cons, List.drop_zero]
    have harith : payload.length + 5 - 4 = payload.length + 1 := by omega
    rw [harith, List.take_succ_cons, take_len_append]
  have hpay : (((encode id payload).drop 3).take ((encode id payload).length - 5)) =
      payload := by
    rw [hlenE, htail]
    simp only [List.drop_succ_cons, List.drop_zero]
    have harith : payload.length + 5 - 5 = payload.length := by omega
    rw [harith, take_len_append]
  have hget2 : (encode id payload).getD 2 0 = id := by
    rw [htail]
    rfl
  have hhead : ((encode id payload).drop 1).head? = some (payload.length + 1) := by
    rw [htail]
    rfl
  have hbEq : ((encode id payload).drop 0).take (payload.length + 1 + 4) =
      encode id payload := by
    rw [List.drop_zero]
    apply List.take_of_length_le
    omega
  have hframe : frameAt (encode id payload) 0 = some (id, payload) := by
    rw [frameAt, hhead, Option.some_bind]
    simp only
    rw [hbEq]
    have hcond2 : (encode id payload).dropLast.getLast? =
        some (CRC8 (((encode id payload).drop 2).take ((encode id payload).length - 4))) := by
      rw [hmid]
      exact hdl2
    rw [if_pos ⟨hlast, hcond2⟩, hget2, hpay]
  rw [decode, hMarkers]
  simp [scanFrames, hframe]

/-- Witness for C1 (amended) at a concrete frame. -/
theorem decode_encode_single_w : decode (encode 1 [2, 3]) = [(1, [2, 3])] :=
  decode_encode_single 1 [2, 3] (by decide) (by decide) (by decide) (by decide)

/-- C2: a marker candidate contributes a frame only if the (possibly
truncated) slice it declares ends in the terminator 255 and carries a
checksum byte equal to CRC8 of its commandId-plus-payload bytes; a
candidate failing the checks (for instance a spurious 254 inside a
payload) is skipped, contributing no frame (hence no state update), and
the scan of the remaining candidates continues unchanged. -/
theorem candidate_validation (byts : List Nat) (i : Nat) (rest : List Nat) :
    (∀ f, frameAt byts i = some f →
      ∃ len, (byts.drop (i + 1)).head? = some len ∧
        ((byts.drop i).take (len + 4)).getLast? = some 255 ∧
        ((byts.drop i).take (len + 4)).dropLast.getLast? =
          some (CRC8 ((((byts.drop i).take (len + 4)).drop 2).take
            (((byts.drop i).take (len + 4)).length - 4)))) ∧
    (frameAt byts i = none → scanFrames byts (i :: rest) = scanFrames byts rest) ∧
    (∀ f, frameAt byts i = some f →
      scanFrames byts (i :: rest) = f :: scanFrames byts rest) := by
  refine ⟨?_, ?_, ?_⟩
  · intro f hf
    rw [frameAt] at hf
    cases hh : (byts.drop (i + 1)).head? with
    | none =>
      rw [hh, Option.none_bind] at hf
      exact absurd hf (by simp)
    | some len =>
      rw [hh, Option.some_bind] at hf
      simp only at hf
      by_cases hc : ((byts.drop i).take (len + 4)).getLast? = some 255 ∧
          ((byts.drop i).take (len + 4)).dropLast.getLast? =
            some (CRC8 ((((byts.drop i).take (len + 4)).drop 2).take
              (((byts.drop i).take (len + 4)).length - 4)))
      · exact ⟨len, rfl, hc.1, hc.2⟩
      · rw [if_neg hc] at hf
        exact absurd hf (by simp)
  · intro h
    simp [scanFrames, h]
  · intro f hf
    simp [scanFrames, hf]

/-- Witness for C2: a candidate with a bad checksum byte is skipped and the
scan continues over the rest of the buffer. -/
theorem candidate_validation_w :
    scanFrames [254, 0, 9, 255] (0 :: []) = scanFrames [254, 0, 9, 255] [] :=
  (candidate_validation [254, 0, 9, 255] 0 []).2.1 (by decide)

/-! Numeric helpers shared by the parameter range model. -/

/-- Python `int()` applied to a float: truncation toward zero. -/
def pyint (q : ℚ) : ℤ := if 0 ≤ q then ⌊q⌋ else ⌈q⌉

/-- Python `round()` on a float: round half to even. -/
def pyround (q : ℚ) : ℤ :=
  if q - ⌊q⌋ < 1 / 2 then ⌊q⌋
  else if 1 / 2 < q - ⌊q⌋ then ⌊q⌋ + 1
  else if ⌊q⌋ % 2 = 0 then ⌊q⌋ else ⌊q⌋ + 1

/-- Python `round(x, 2)` as used by frange. -/
def round2 (q : ℚ) : ℚ := (pyround (q * 100) : ℚ) / 100

/-- frange from pytms.py: float version of range, rounded to 2 decimals. -/
def frange (start stop step : ℚ) : List ℚ :=
  let f := (stop - start) / step
  let n := if (pyint f : ℚ) < f then pyint f + 1 else pyint f
  (List.range n.toNat).map (fun x => round2 ((x : ℚ) * step + start))

/-- Python `range(a, b)` as a list of rationals. -/
def rangeI (a b : ℤ) : List ℚ := (List.range (b - a).toNat).map (fun k => ((a + k : ℤ) : ℚ))

/-- Python `range(a, b, st)` with positive step st, as a list of rationals. -/
def rangeS (a b st : ℤ) : List ℚ :=
  (List.range (((b - a) + st - 1).fdiv st).toNat).map (fun k => ((a + st * k : ℤ) : ℚ))

/-- int2byte from pytms.py: `sum([divmod(int(i), 256) for i in u16], ())`. -/
def int2byte (u16 : List ℚ) : List ℤ :=
  (u16.map (fun q => [(pyint q).fdiv 256, (pyint q).fmod 256])).flatten

/-- closestVal from pytms.py: the first set member minimizing the absolute
distance to val (Python min keeps the earliest minimizer), paired with the
deviation, divided by the absolute request when the request is nonzero.
The source raises on an empty sequence; every call site passes a nonempty
set, so the empty case is junk and the theorems assume nonemptiness. -/
def closestVal (val : ℚ) : List ℚ → ℚ × ℚ
  | [] => (val, 0)
  | v :: vs =>
    let snapped := vs.foldl (fun best x => if |x - val| < |best - val| then x else best) v
    let dev := |snapped - val|
    (snapped, if val ≠ 0 then dev / |val| else dev)

lemma closest_fold_mem (val : ℚ) :
    ∀ (vs : List ℚ) (b : ℚ),
      vs.foldl (fun best x => if |x - val| < |best - val| then x else best) b ∈ b :: vs := by
  intro vs
  induction vs with
  | nil => intro b; simp
  | cons x vs ih =>
    intro b
    rw [List.foldl_cons]
    by_cases hx : |x - val| < |b - val|
    · rw [if_pos hx]
      rcases List.mem_cons.mp (ih x) with h1 | h1
      · simp [h1, List.mem_cons]
      · simp only [List.mem_cons]
        tauto
    · rw [if_neg hx]
      rcases List.mem_cons.mp (ih b) with h1 | h1
      · simp [h1, List.mem_cons]
      · simp only [List.mem_cons]
        tauto
lemma closest_fold_min (val : ℚ) :
    ∀ (vs : List ℚ) (b : ℚ) (y : ℚ), y ∈ b :: vs →
      |vs.foldl (fun best x => if |x - val| < |best - val| then x else best) b - val| ≤
        |y - val| := by
  intro vs
  induction vs with
  | nil =>
    intro b y hy
    simp only [List.foldl_nil]
    rcases List.mem_cons.mp hy with h | h
    · rw [h]
    · simp at h
  | cons x vs ih =>
    intro b y hy
    rw [List.foldl_cons]
    have hstep : |(if |x - val| < |b - val| then x else b) - val| ≤ |b - val| ∧
        |(if |x - val| < |b - val| then x else b) - val| ≤ |x - val| := by
      by_cases hx : |x - val| < |b - val|
      · rw [if_pos hx]
        exact ⟨le_of_lt hx, le_refl _⟩
      · rw [if_neg hx]
        exact ⟨le_refl _, le_of_not_lt hx⟩
    rcases List.mem_cons.mp hy with h | h
    · subst h
      exact le_trans (ih _ _ (List.mem_cons_self ..)) hstep.1
    · rcases List.mem_cons.mp h with h1 | h1
      · subst h1
        exact le_trans (ih _ _ (List.mem_cons_self ..)) hstep.2
      · exact ih _ _ (List.mem_cons_of_mem _ h1)

/-- C5: closestVal returns a member of the legal set at minimal absolute
distance from the request; the second component is the relative deviation
when the request is nonzero; quantizing a value already in the set returns
it unchanged with zero deviation. -/
theorem closestVal_spec (val : ℚ) (vals : List ℚ) (hne : vals ≠ []) :
    (closestVal val vals).1 ∈ vals ∧
    (∀ x ∈ vals, |(closestVal val vals).1 - val| ≤ |x - val|) ∧
    (val ≠ 0 → (closestVal val vals).2 = |(closestVal val vals).1 - val| / |val|) ∧
    (val ∈ vals → closestVal val vals = (val, 0)) := by
  obtain ⟨v, vs, rfl⟩ := List.exists_cons_of_ne_nil hne
  refine ⟨closest_fold_mem val vs v, fun x hx => closest_fold_min val vs v x hx, ?_, ?_⟩
  · intro hval
    simp only [closestVal, if_pos hval]
  · intro hmem
    have hmin := closest_fold_min val vs v val hmem
    have hzero : |vs.foldl (fun best x => if |x - val| < |best - val| then x else best) v
        - val| = 0 := le_antisymm (by simpa using hmin) (abs_nonneg _)
    have heq : vs.foldl (fun best x => if |x - val| < |best - val| then x else best) v = val := by
      have := abs_eq_zero.mp hzero
      linarith
    simp only [closestVal, heq, sub_self, abs_zero]
    by_cases hv : val = 0
    · simp [hv]
    · simp [hv]

/-- Witness for C5: quantizing 3 over the set 1, 3, 7 returns 3 with zero
deviation. -/
theorem closestVal_spec_w : closestVal 3 [1, 3, 7] = (3, 0) :=
  (closestVal_spec 3 [1, 3, 7] (by decide)).2.2.2 (by decide)

/-! Device state model: the fields of the TMS instance touched by the
command surface, and the train sub-state (class trainParam). -/

/-- Train parameters object (class trainParam). -/
structure TrainState where
  TimingControl : String
  RepRate : ℚ
  PulsesInTrain : ℚ
  NumberOfTrains : ℚ
  ITI : ℚ
  PriorWarningSound : Bool
  RampUp : ℚ
  RampUpTrains : ℚ

deriving instance DecidableEq for TrainState

/-- The TMS instance fields mutated by the setters modelled here. -/
structure TMSState where
  Model : String
  mode : String
  currentDirection : String
  waveform : String
  burstPulses : ℤ
  IPI : ℚ
  BARatio : ℚ
  delays : List ℚ
  page : String
  enabled : Bool
  amplitude : ℤ × ℤ
  ExRate : Bool
  CoilTypeDisplay : Bool
  train : TrainState

deriving instance DecidableEq for TMSState

/-- Error conditions of the setters: the AssertionError raised by
`assert self._enabled` and the AssertionError raised by a hard parameter
check. -/
inductive Err where
  | NotEnabled
  | InvalidParameter

deriving instance DecidableEq for Err

/-- Result of a mutator: an error, or the new state together with the list
of command-plus-payload tuples handed to TMS._write. -/
abbrev Out := Except Err (TMSState × List (List ℤ))

/-- TMS._write with its `try: ... except: pass`: on a broken or absent
transport nothing is sent and no exception propagates to the caller.  The
connected flag stands for the health of the serial port. -/
def _write (connected : Bool) (b : List ℤ) : List (List ℤ) :=
  if connected then [b] else []

/-- defaults assigned in TMS.__init__ and trainParam.__init__. -/
def initTrain : TrainState :=
  { TimingControl := "Sequence", RepRate := 1, PulsesInTrain := 5, NumberOfTrains := 3,
    ITI := 1, PriorWarningSound := true, RampUp := 1, RampUpTrains := 10 }

def initState : TMSState :=
  { Model := "X100", mode := "Standard", currentDirection := "Normal",
    waveform := "Biphasic", burstPulses := 2, IPI := 10, BARatio := 1,
    delays := [0, 0, 0], page := "Main", enabled := false, amplitude := (0, 0),
    ExRate := false, CoilTypeDisplay := true, train := initTrain }

/-! Enumerations and their model-dependent dictionaries. -/

def MODELs : List String :=
  ["R30", "X100", "R30+Option", "X100+Option", "R30+Option+Mono", "MST"]

def TCs : List String := ["Sequence", "External Trig", "Ext Seq. Start", "Ext Seq. Cont"]

def PAGEs : List (ℤ × String) :=
  [(1, "Main"), (2, "Timing"), (3, "Trig"), (4, "Config"), (6, "Download"),
   (7, "Protocol"), (8, "MEP"), (13, "Service"), (15, "Treatment"),
   (16, "Treat Select"), (17, "Service2"), (19, "Calculator")]

/-- key from pytms.py: the key of the first entry whose value matches, else -1. -/
def key : List (ℤ × String) → String → ℤ
  | [], _ => -1
  | (k, v) :: rest, val => if v = val then k else key rest val

def _MODEs (model : String) : List (ℤ × String) :=
  if model = "R30" ∨ model = "X100" then [(0, "Standard")]
  else if model = "R30+Option" then [(0, "Standard"), (2, "Twin"), (3, "Dual")]
  else [(0, "Standard"), (1, "Power"), (2, "Twin"), (3, "Dual")]

def _curDirs (model : String) : List (ℤ × String) :=
  if model = "R30" ∨ model = "R30+Option" then [(0, "Normal")]
  else [(0, "Normal"), (1, "Reverse")]

def _wvForms (model : String) : List (ℤ × String) :=
  if model = "R30" then [(1, "Biphasic")]
  else if model = "R30+Option" then [(0, "Monophasic"), (1, "Biphasic")]
  else if model = "X100" then [(0, "Monophasic"), (1, "Biphasic"), (3, "Biphasic Burst")]
  else [(0, "Monophasic"), (1, "Biphasic"), (2, "Halfsine"), (3, "Biphasic Burst")]

/-! Parameter range model. -/

/-- TMS._IPIs: the legal inter-pulse-interval set, reading only mode and
waveform of the state. -/
def _IPIs (s : TMSState) : List ℚ :=
  if ¬(s.mode = "Twin" ∨ s.mode = "Dual") then
    (frange 0.5 10.01 0.1 ++ frange 10.5 20.1 0.5 ++ rangeI 21 101).reverse
  else
    let i0 : ℚ := if s.waveform = "Monophasic" then 2 else 1
    (frange i0 10.01 0.1 ++ frange 10.5 20.1 0.5 ++ rangeI 21 101 ++
      rangeS 110 501 10 ++ rangeS 550 1001 50 ++ rangeS 1100 3001 100).reverse

/-- TMS._RATEs: legal repetition rates given model, mode, waveform and the
extended-rate flag. -/
def _RATEs (s : TMSState) : List ℚ :=
  let LH : ℤ × ℤ :=
    if s.Model = "R30" then (if s.ExRate then (20, 30) else (1, 30))
    else if s.Model = "R30+Option" then
      (if s.mode = "Twin" ∨ s.mode = "Dual" then
        (if s.ExRate then (5, 0) else (1, 5))
      else (1, 30))
    else if s.Model = "X100" then
      (if s.waveform = "Biphasic Burst" then (if s.ExRate then (20, 0) else (1, 20))
      else if s.ExRate then (20, 100) else (1, 100))
    else if s.Model = "X100+Option" then
      (if s.waveform = "Biphasic Burst" then (if s.ExRate then (20, 0) else (1, 20))
      else if s.mode = "Twin" ∨ s.mode = "Dual" then
        (if s.waveform = "Monophasic" then (if s.ExRate then (5, 0) else (1, 5))
        else if s.ExRate then (20, 50) else (1, 50))
      else if s.ExRate then (20, 100) else (1, 100))
    else (1, 100)
  frange 0.1 ((LH.1 : ℚ) + 0.01) 0.1 ++ rangeI (LH.1 + 1) (LH.2 + 1)

/-! The command surface.  Each mutator follows the source order: equality
guard (where present), hard validation, optimistic local mutation, then
the outbound frames through _write. -/

/-- TMS._setParam9: the composite commandId 9 write, built from the already
mutated state. -/
def _setParam9 (c : Bool) (s : TMSState) : List (List ℤ) :=
  let b9 : List ℤ :=
    [(MODELs.indexOf s.Model : ℤ), key (_MODEs s.Model) s.mode,
     key (_curDirs s.Model) s.currentDirection, key (_wvForms s.Model) s.waveform,
     5 - s.burstPulses] ++ int2byte [s.IPI * 10] ++ int2byte [s.BARatio * 100]
  _write c ([9, 1] ++ b9) ++ _write c [9, 0]

/-- page setter: validate against PAGEs, set the field, send (7, k) and
(12, 0).  The final Python re-check `self._page != arg` is vacuous in this
sequential model because the field was just assigned. -/
def setPage (c : Bool) (s : TMSState) (arg : String) : Out :=
  let k := key PAGEs arg
  if 0 ≤ k then .ok ({ s with page := arg }, _write c [7, k] ++ _write c [12, 0])
  else .error .InvalidParameter

def firePulse (c : Bool) (s : TMSState) : Out :=
  if s.enabled then .ok (s, _write c [3]) else .error .NotEnabled

def fireTrain (c : Bool) (s : TMSState) : Out :=
  if s.enabled then
    match setPage c s "Timing" with
    | .ok (s', fs) => .ok (s', fs ++ _write c [4])
    | .error e => .error e
  else .error .NotEnabled

def fireProtocol (c : Bool) (s : TMSState) : Out :=
  if s.enabled then
    match setPage c s "Protocol" with
    | .ok (s', fs) => .ok (s', fs ++ _write c [4])
    | .error e => .error e
  else .error .NotEnabled

/-- amplitude setter argument: a scalar or a pair, Python list and tuple
arguments being the pair case. -/
inductive AmpArg where
  | scalar (a : ℤ)
  | pair (a b : ℤ)

/-- amplitude setter: a scalar is paired with the stored channel B value;
only channel A (amp[0]) is validated; the frame is (1,) + amp. -/
def setAmplitude (c : Bool) (s : TMSState) (arg : AmpArg) : Out :=
  let amp : ℤ × ℤ :=
    match arg with
    | .scalar a => (a, s.amplitude.2)
    | .pair a b => (a, b)
  if 0 ≤ amp.1 ∧ amp.1 ≤ 100 then
    .ok ({ s with amplitude := amp }, _write c [1, amp.1, amp.2])
  else .error .InvalidParameter

def setEnabled (c : Bool) (s : TMSState) (tf : Bool) : Out :=
  .ok ({ s with enabled := tf }, _write c [2, if tf then 1 else 0])

def setMode (c : Bool) (s : TMSState) (arg : String) : Out :=
  if s.mode = arg then .ok (s, [])
  else if 0 ≤ key (_MODEs s.Model) arg then
    let s' := { s with mode := arg }
    .ok (s', _setParam9 c s')
  else .error .InvalidParameter

/-- currentDirection setter.  The source guard is `if self._curDirs==arg:
return`, comparing the legal-direction dict with the string argument; in
Python a dict never equals a string, so the guard never fires and is
omitted here. -/
def setCurrentDirection (c : Bool) (s : TMSState) (arg : String) : Out :=
  if 0 ≤ key (_curDirs s.Model) arg then
    let s' := { s with currentDirection := arg }
    .ok (s', _setParam9 c s')
  else .error .InvalidParameter

def setWaveform (c : Bool) (s : TMSState) (arg : String) : Out :=
  if s.waveform = arg then .ok (s, [])
  else if 0 ≤ key (_wvForms s.Model) arg then
    let s' := { s with waveform := arg }
    .ok (s', _setParam9 c s')
  else .error .InvalidParameter

def setBurstPulses (c : Bool) (s : TMSState) (arg : ℤ) : Out :=
  if s.burstPulses = arg then .ok (s, [])
  else if arg = 2 ∨ arg = 3 ∨ arg = 4 ∨ arg = 5 then
    let s' := { s with burstPulses := arg }
    .ok (s', _setParam9 c s')
  else .error .InvalidParameter

def setIPI (c : Bool) (s : TMSState) (arg : ℚ) : Out :=
  if s.IPI = arg then .ok (s, [])
  else
    let s' := { s with IPI := (closestVal arg (_IPIs s)).1 }
    .ok (s', _setParam9 c s')

def setBARatio (c : Bool) (s : TMSState) (arg : ℚ) : Out :=
  if s.BARatio = arg then .ok (s, [])
  else
    let s' := { s with BARatio := (closestVal arg (frange 0.2 5.01 0.05)).1 }
    .ok (s', _setParam9 c s')

/-- delays setter (list argument case): quantize the three entries, store,
send (10, 1) + int2byte((di*10, round(do*10)&0xffff, dc)) and (10, 0). -/
def setDelays (c : Bool) (s : TMSState) (arg : List ℚ) : Out :=
  if s.delays = arg then .ok (s, [])
  else
    let di := (closestVal (arg.getD 0 0)
      (frange 0 10.01 0.1 ++ rangeI 11 101 ++ rangeS 110 6501 10)).1
    let dd := (closestVal (arg.getD 1 0)
      (rangeI (-100) (-9) ++ frange (-9.9) 10.01 0.1 ++ rangeI 11 101)).1
    let dc := (closestVal (arg.getD 2 0)
      (rangeS 0 101 10 ++ rangeS 125 4001 25 ++ rangeS 4050 12001 50)).1
    let s' := { s with delays := [di, dd, dc] }
    .ok (s', _write c ([10, 1] ++
      int2byte [di * 10, (((pyround (dd * 10)).emod 65536 : ℤ) : ℚ), dc]) ++ _write c [10, 0])

def setCoilTypeDisplay (c : Bool) (s : TMSState) (arg : Bool) : Out :=
  .ok ({ s with CoilTypeDisplay := arg }, _write c [0])

/-- the commandId 11 payload built by TMS._setTrain: timing-control index,
repetition rate, pulses in train, number of trains, inter-train interval
and the warning-sound flag.  The ramp-up fields are not carried. -/
def train11payload (t : TrainState) : List ℤ :=
  [1, (TCs.indexOf t.TimingControl : ℤ)] ++
    int2byte [t.RepRate * 10, t.PulsesInTrain, t.NumberOfTrains, t.ITI * 10] ++
    [if t.PriorWarningSound then 1 else 0]

/-- TMS._setTrain: switch the page to Timing, then send the commandId 11
set and sync frames. -/
def _setTrain (c : Bool) (s : TMSState) : Out :=
  match setPage c s "Timing" with
  | .ok (s', fs) =>
    .ok (s', fs ++ _write c ((11 : ℤ) :: train11payload s'.train) ++ _write c [11, 0])
  | .error e => .error e

def setTimingControl (c : Bool) (s : TMSState) (arg : String) : Out :=
  if s.train.TimingControl = arg then .ok (s, [])
  else if arg ∈ TCs then
    _setTrain c { s with train := { s.train with TimingControl := arg } }
  else .error .InvalidParameter

def setRepRate (c : Bool) (s : TMSState) (arg : ℚ) : Out :=
  if s.train.RepRate = arg then .ok (s, [])
  else _setTrain c { s with train := { s.train with RepRate := (closestVal arg (_RATEs s)).1 } }

def setPulsesInTrain (c : Bool) (s : TMSState) (arg : ℚ) : Out :=
  if s.train.PulsesInTrain = arg then .ok (s, [])
  else _setTrain c { s with train := { s.train with
    PulsesInTrain := (closestVal arg (rangeI 1 1001 ++ rangeS 1100 2001 100)).1 } }

def setNumberOfTrains (c : Bool) (s : TMSState) (arg : ℚ) : Out :=
  if s.train.NumberOfTrains = arg then .ok (s, [])
  else _setTrain c { s with train := { s.train with
    NumberOfTrains := (closestVal arg (rangeI 1 501)).1 } }

def setITI (c : Bool) (s : TMSState) (arg : ℚ) : Out :=
  if s.train.ITI = arg then .ok (s, [])
  else _setTrain c { s with train := { s.train with
    ITI := (closestVal arg (frange 0.1 300.01 0.1)).1 } }

def setPriorWarningSound (c : Bool) (s : TMSState) (arg : Bool) : Out :=
  if s.train.PriorWarningSound = arg then .ok (s, [])
  else _setTrain c { s with train := { s.train with PriorWarningSound := arg } }

def setRampUp (c : Bool) (s : TMSState) (arg : ℚ) : Out :=
  if s.train.RampUp = arg then .ok (s, [])
  else _setTrain c { s with train := { s.train with
    RampUp := (closestVal arg (frange 0.7 1.01 0.05)).1 } }

def setRampUpTrains (c : Bool) (s : TMSState) (arg : ℚ) : Out :=
  if s.train.RampUpTrains = arg then .ok (s, [])
  else _setTrain c { s with train := { s.train with
    RampUpTrains := (closestVal arg (rangeI 1 11)).1 } }

/-- the mutators of the command surface, as one dispatchable type. -/
inductive Op where
  | enabled (tf : Bool)
  | amplitude (a : AmpArg)
  | mode (arg : String)
  | currentDirection (arg : String)
  | waveform (arg : String)
  | burstPulses (n : ℤ)
  | ipi (q : ℚ)
  | baRatio (q : ℚ)
  | delays (d : List ℚ)
  | page (arg : String)
  | coilTypeDisplay (b : Bool)
  | pulse
  | train
  | protocol
  | timingControl (arg : String)
  | repRate (q : ℚ)
  | pulsesInTrain (q : ℚ)
  | numberOfTrains (q : ℚ)
  | iti (q : ℚ)
  | priorWarningSound (b : Bool)
  | rampUp (q : ℚ)
  | rampUpTrains (q : ℚ)

def applyOp (c : Bool) : Op → TMSState → Out
  | .enabled tf, s => setEnabled c s tf
  | .amplitude a, s => setAmplitude c s a
  | .mode arg, s => setMode c s arg
  | .currentDirection arg, s => setCurrentDirection c s arg
  | .waveform arg, s => setWaveform c s arg
  | .burstPulses n, s => setBurstPulses c s n
  | .ipi q, s => setIPI c s q
  | .baRatio q, s => setBARatio c s q
  | .delays d, s => setDelays c s d
  | .page arg, s => setPage c s arg
  | .coilTypeDisplay b, s => setCoilTypeDisplay c s b
  | .pulse, s => firePulse c s
  | .train, s => fireTrain c s
  | .protocol, s => fireProtocol c s
  | .timingControl arg, s => setTimingControl c s arg
  | .repRate q, s => setRepRate c s q
  | .pulsesInTrain q, s => setPulsesInTrain c s q
  | .numberOfTrains q, s => setNumberOfTrains c s q
  | .iti q, s => setITI c s q
  | .priorWarningSound b, s => setPriorWarningSound c s b
  | .rampUp q, s => setRampUp c s q
  | .rampUpTrains q, s => setRampUpTrains c s q

/-- the state component of a mutator result, dropping the frames. -/
def stateOf (r : Out) : Except Err TMSState := r.map Prod.fst

/-! Single-instance model of TMS.__new__ and TMS.__init__: objects are
identified by handles, TMS._INS is the registry. -/

structure ProcState where
  INS : Option Nat
  openPorts : Nat

deriving instance DecidableEq for ProcState

/-- TMS(): `__new__` returns the stored instance when one is alive, and
`__init__` returns immediately for it; otherwise a new object is created,
registered, and a transport is opened. -/
def tmsNew (p : ProcState) (fresh : Nat) : Nat × ProcState :=
  match p.INS with
  | some t => (t, p)
  | none => (fresh, { INS := some fresh, openPorts := p.openPorts + 1 })

/-! Theorems about the command surface. -/

lemma setPage_timing (c : Bool) (s : TMSState) :
    setPage c s "Timing" =
      .ok ({ s with page := "Timing" }, _write c [7, 2] ++ _write c [12, 0]) := rfl

lemma setPage_protocol (c : Bool) (s : TMSState) :
    setPage c s "Protocol" =
      .ok ({ s with page := "Protocol" }, _write c [7, 7] ++ _write c [12, 0]) := rfl

/-- C3: with enabled false, firePulse, fireTrain and fireProtocol all fail
with the NotEnabled condition; the error result carries no mutated state
and no outbound frame. -/
theorem fire_requires_enabled (c : Bool) (s : TMSState) (h : s.enabled = false) :
    firePulse c s = .error .NotEnabled ∧ fireTrain c s = .error .NotEnabled ∧
      fireProtocol c s = .error .NotEnabled := by
  simp [firePulse, fireTrain, fireProtocol, h]

/-- Witness for C3 at the freshly initialized state, which is disabled. -/
theorem fire_requires_enabled_w :
    firePulse true initState = .error .NotEnabled ∧
      fireTrain true initState = .error .NotEnabled ∧
      fireProtocol true initState = .error .NotEnabled :=
  fire_requires_enabled true initState rfl

/-- C4 counterexample: a pair argument with channel B far outside [0,100]
is accepted, mutates the state and emits a frame, because the source only
validates amp[0]. -/
theorem setAmplitude_channelB_unchecked :
    setAmplitude true initState (.pair 50 150) =
      .ok ({ initState with amplitude := (50, 150) }, [[1, 50, 150]]) := by decide

/-- C4 (amended): the amplitude setter validates channel A only: it fails
with InvalidParameter, leaving the stored amplitude unchanged and emitting
no frame, exactly when channel A is outside [0,100]; a scalar argument a
sets channel A to a and keeps the previous channel B value, so a
subsequent read returns (a, previousChannelB). -/
theorem setAmplitude_spec (c : Bool) (s : TMSState) (a b : ℤ) :
    ((0 ≤ a ∧ a ≤ 100) → setAmplitude c s (.scalar a) =
      .ok ({ s with amplitude := (a, s.amplitude.2) }, _write c [1, a, s.amplitude.2])) ∧
    (¬(0 ≤ a ∧ a ≤ 100) →
      setAmplitude c s (.scalar a) = .error .InvalidParameter ∧
      setAmplitude c s (.pair a b) = .error .InvalidParameter) := by
  constructor
  · intro h
    simp [setAmplitude, h]
  · intro h
    constructor <;> simp [setAmplitude, h]

/-- Witness for C4 (amended): setting 60 from the initial state stores
(60, 0) and transmits the amplitude frame. -/
theorem setAmplitude_spec_w :
    setAmplitude true initState (.scalar 60) =
      .ok ({ initState with amplitude := (60, 0) }, [[1, 60, 0]]) :=
  (setAmplitude_spec true initState 60 0).1 (by decide)

/-- C6: constructing a TMS while an instance is alive returns the
identical object and opens no second transport (the process state, in
particular the open-transport count, is unchanged). -/
theorem tmsNew_existing (p : ProcState) (t fresh : Nat) (h : p.INS = some t) :
    tmsNew p fresh = (t, p) := by
  simp [tmsNew, h]

/-- Witness for C6 with a live instance registered. -/
theorem tmsNew_existing_w : tmsNew ⟨some 5, 1⟩ 9 = (5, ⟨some 5, 1⟩) :=
  tmsNew_existing ⟨some 5, 1⟩ 5 9 rfl

/-- C7: for every mutator, a failing transport write is swallowed by
TMS._write: the result of the operation with a broken transport has the
same error-or-state outcome as with a healthy one, so no exception
propagates and the optimistic local mutation stands. -/
theorem mutate_survives_transmit_failure (op : Op) (s : TMSState) :
    stateOf (applyOp false op s) = stateOf (applyOp true op s) := by
  cases op with
  | enabled tf => rfl
  | amplitude a =>
    cases a <;> (simp only [applyOp, setAmplitude]; split_ifs <;> rfl)
  | mode arg => simp only [applyOp, setMode]; split_ifs <;> rfl
  | currentDirection arg => simp only [applyOp, setCurrentDirection]; split_ifs <;> rfl
  | waveform arg => simp only [applyOp, setWaveform]; split_ifs <;> rfl
  | burstPulses n => simp only [applyOp, setBurstPulses]; split_ifs <;> rfl
  | ipi q => simp only [applyOp, setIPI]; split_ifs <;> rfl
  | baRatio q => simp only [applyOp, setBARatio]; split_ifs <;> rfl
  | delays d => simp only [applyOp, setDelays]; split_ifs <;> rfl
  | page arg => simp only [applyOp, setPage]; split_ifs <;> rfl
  | coilTypeDisplay b => rfl
  | pulse => simp only [applyOp, firePulse]; split_ifs <;> rfl
  | train => simp only [applyOp, fireTrain, setPage_timing]; split_ifs <;> rfl
  | protocol => simp only [applyOp, fireProtocol, setPage_protocol]; split_ifs <;> rfl
  | timingControl arg =>
    simp only [applyOp, setTimingControl, _setTrain, setPage_timing]; split_ifs <;> rfl
  | repRate q =>
    simp only [applyOp, setRepRate, _setTrain, setPage_timing]; split_ifs <;> rfl
  | pulsesInTrain q =>
    simp only [applyOp, setPulsesInTrain, _setTrain, setPage_timing]; split_ifs <;> rfl
  | numberOfTrains q =>
    simp only [applyOp, setNumberOfTrains, _setTrain, setPage_timing]; split_ifs <;> rfl
  | iti q =>
    simp only [applyOp, setITI, _setTrain, setPage_timing]; split_ifs <;> rfl
  | priorWarningSound b =>
    simp only [applyOp, setPriorWarningSound, _setTrain, setPage_timing]; split_ifs <;> rfl
  | rampUp q =>
    simp only [applyOp, setRampUp, _setTrain, setPage_timing]; split_ifs <;> rfl
  | rampUpTrains q =>
    simp only [applyOp, setRampUpTrains, _setTrain, setPage_timing]; split_ifs <;> rfl

/-- C8 counterexample: the Twin set is strictly larger than the set for
other modes, and contains values (such as 110 ms) absent from it, so it is
not narrower under either the cardinality or the subset reading. -/
theorem IPIs_twin_not_narrower :
    (_IPIs initState).length < (_IPIs { initState with mode := "Twin" }).length ∧
    (110 : ℚ) ∈ _IPIs { initState with mode := "Twin" } ∧
    (110 : ℚ) ∉ _IPIs initState := by decide

/-- C8 (amended): the inter-pulse-interval legal set is a function of mode
and waveform only; in Twin or Dual mode the set loses the sub-1 ms values
(its minimum rises from 0.5) but gains far larger values up to 3000 ms, so
it is extended rather than narrower; with Monophasic waveform in Twin/Dual
the low end rises further, excluding 1 ms and starting at 2 ms. -/
theorem IPIs_spec (s t : TMSState) (h1 : s.mode = t.mode) (h2 : s.waveform = t.waveform) :
    _IPIs s = _IPIs t ∧
    ((0.5 : ℚ) ∈ _IPIs initState ∧
      (0.5 : ℚ) ∉ _IPIs { initState with mode := "Twin" } ∧
      (1 : ℚ) ∈ _IPIs { initState with mode := "Twin" } ∧
      (3000 : ℚ) ∈ _IPIs { initState with mode := "Twin" } ∧
      (3000 : ℚ) ∉ _IPIs initState) ∧
    ((1 : ℚ) ∉ _IPIs { initState with mode := "Twin", waveform := "Monophasic" } ∧
      (2 : ℚ) ∈ _IPIs { initState with mode := "Twin", waveform := "Monophasic" }) := by
  refine ⟨?_, by decide, by decide⟩
  unfold _IPIs
  rw [h1, h2]

/-- Witness for C8 (amended): two states differing only in fields other
than mode and waveform share the same legal set. -/
theorem IPIs_spec_w :
    _IPIs { initState with amplitude := (5, 5) } = _IPIs initState :=
  (IPIs_spec { initState with amplitude := (5, 5) } initState rfl rfl).1

/-- C9: the commandId 11 payload carries only the timing-control index,
repetition rate, pulses-in-train, number-of-trains, inter-train-interval
and the warning-sound flag, never the ramp-up fields (first conjunct:
replacing both ramp fields leaves the payload unchanged); every train
change funnels through _setTrain, which sends exactly the page switch,
the commandId 11 set frame and the commandId 11 sync frame (second
conjunct); the RampUp and RampUpTrains setters quantize over their legal
sets and store the result locally before transmitting (third and fourth
conjuncts). -/
theorem setTrain_spec (c : Bool) (s : TMSState) (q r n : ℚ) :
    train11payload { s.train with RampUp := r, RampUpTrains := n } = train11payload s.train ∧
    _setTrain c s = .ok ({ s with page := "Timing" },
      _write c [7, 2] ++ _write c [12, 0] ++
        _write c ((11 : ℤ) :: train11payload s.train) ++ _write c [11, 0]) ∧
    (q ≠ s.train.RampUp → setRampUp c s q = _setTrain c
      { s with train := { s.train with RampUp := (closestVal q (frange 0.7 1.01 0.05)).1 } }) ∧
    (q ≠ s.train.RampUpTrains → setRampUpTrains c s q = _setTrain c
      { s with train := { s.train with RampUpTrains := (closestVal q (rangeI 1 11)).1 } }) := by
  refine ⟨rfl, ?_, ?_, ?_⟩
  · rw [_setTrain, setPage_timing]
  · intro h
    rw [setRampUp, if_neg (fun he => h he.symm)]
  · intro h
    rw [setRampUpTrains, if_neg (fun he => h he.symm)]

/-- Witness for C9: setting RampUp to 0.8 from the initial state quantizes
over the 0.7 to 1.0 grid and re-sends the train command. -/
theorem setTrain_spec_w :
    setRampUp true initState (4 / 5) = _setTrain true
      { initState with train :=
        { initState.train with RampUp := (closestVal (4 / 5) (frange 0.7 1.01 0.05)).1 } } :=
  (setTrain_spec true initState (4 / 5) 0 0).2.2.1 (by decide)

/-- C10 (code bug): assigning the currently stored direction still
transmits the composite commandId 9 frames, because the source guard
compares the legal-direction dict (self._curDirs) with the argument and
never fires; the sibling mode setter with an equal value transmits
nothing, as the claim describes. -/
theorem currentDirection_equal_assignment_transmits :
    setCurrentDirection true initState "Normal" =
      .ok (initState, [[9, 1, 1, 0, 0, 1, 3, 0, 100, 0, 100], [9, 0]]) ∧
    setMode true initState "Standard" = .ok (initState, []) := by
  constructor <;> decide

end PyTMS
